import Mathlib

/-!
Shallow embedding of the core of the `ispeake-api` repository (a FastAPI +
MongoDB backend): the password/credential functions of
`src/app/core/security.py`, the JWT issue/verify functions of the same file,
the visibility-aware ISpeak service of `src/app/services/ispeak_service.py`,
the API-token registry of `src/app/services/token_service.py`, and the
token-posting router of `src/app/routers/ispeak.py`.

Python strings are modelled as lists of Unicode code points (so that lone
surrogates, which Python `str` admits and UTF-8 encoding rejects, are
representable); the MongoDB collections are modelled as lists of documents
with first-match semantics for `find_one` / `update_one` / `delete_one`;
exceptions are modelled with `Except`.  External primitives (hashlib SHA-256,
bcrypt, python-jose JWT) are modelled as idealized functions, with their
interfaces documented at the definition.
-/

set_option autoImplicit false

/-- Exceptions that the modelled Python code can raise. -/
inductive PyErr where
  /-- Python `ValueError` (raised by the services on an invalid tag id,
  and by the bcrypt primitive on a malformed digest). -/
  | valueError
  /-- `bson.errors.InvalidId`, raised by `ObjectId(s)` on a malformed id
  string.  Not a subclass of `ValueError`. -/
  | invalidId
  /-- `UnicodeEncodeError`, raised by `str.encode("utf-8")` on a lone
  surrogate code point. -/
  | unicodeEncodeError
deriving DecidableEq, Repr

deriving instance DecidableEq for Except

/-- A byte sequence (each element `< 256`). -/
abbrev Bytes := List Nat

/-- A Python `str`: a finite sequence of Unicode code points.  Unlike Lean
`String`, a Python `str` may contain lone surrogates, which make
`encode("utf-8")` raise. -/
abbrev PyStr := List Nat

/-- Whether a code point is a (lone) surrogate, i.e. in `[0xD800, 0xDFFF]`. -/
def isSurrogate (n : Nat) : Bool := 0xD800 ≤ n && n ≤ 0xDFFF

/-- UTF-8 encoding of a single code point (the standard 1-4 byte scheme). -/
def utf8EncodeCp (n : Nat) : Bytes :=
  if n < 0x80 then [n]
  else if n < 0x800 then [0xC0 + n / 64, 0x80 + n % 64]
  else if n < 0x10000 then [0xE0 + n / 4096, 0x80 + n / 64 % 64, 0x80 + n % 64]
  else [0xF0 + n / 262144, 0x80 + n / 4096 % 64, 0x80 + n / 64 % 64, 0x80 + n % 64]

/-- Model of Python `s.encode("utf-8")`: raises `UnicodeEncodeError` on a
lone surrogate, otherwise concatenates the per-code-point encodings. -/
def pyEncodeUtf8 (s : PyStr) : Except PyErr Bytes :=
  if s.any isSurrogate then .error .unicodeEncodeError
  else .ok (s.flatMap utf8EncodeCp)

/-- Interface of `hashlib.sha256(_).hexdigest()` (an external primitive):
the digest of any byte string is a string of exactly 64 hexadecimal ASCII
characters (in particular every code point is `< 0x80`). -/
def IsHexDigestFn (sha : Bytes → PyStr) : Prop :=
  ∀ b : Bytes, (sha b).length = 64 ∧ ∀ c ∈ sha b, c < 0x80

/-- Function `_preprocess_password` from `src/app/core/security.py`:
`hashlib.sha256(password.encode("utf-8")).hexdigest()`, parametrized by the
SHA-256 hex-digest primitive `sha`. -/
def _preprocess_password (sha : Bytes → PyStr) (password : PyStr) :
    Except PyErr PyStr := do
  let b ← pyEncodeUtf8 password
  pure (sha b)

/-- Model of `passlib` `CryptContext(schemes=["bcrypt"]).hash`: bcrypt only
consumes the first 72 bytes of its input; the model idealizes the digest as
an injective record of those bytes, tagged with a leading `$` code point
(real bcrypt digests start with `$2b$...`).  The digest string produced for
an ASCII input consists of ASCII code points only, as real bcrypt digests
do. -/
def pwdContextHash (pre : PyStr) : Except PyErr PyStr := do
  let b ← pyEncodeUtf8 pre
  pure (36 :: b.take 72)

/-- Model of `bcrypt.checkpw(password_bytes, hash_bytes)`: parses the digest
(raising `ValueError` on a malformed one, as the real primitive does) and
compares it against the idealized digest of the first 72 bytes of the
candidate password. -/
def bcryptCheckpw (pw hashBytes : Bytes) : Except PyErr Bool :=
  match hashBytes with
  | b :: pre =>
    if b = 36 then .ok (decide (pw.take 72 = pre)) else .error .valueError
  | [] => .error .valueError

/-- Function `hash_password` from `src/app/core/security.py`: SHA-256 preprocessing
followed by the bcrypt context hash. -/
def hash_password (sha : Bytes → PyStr) (password : PyStr) :
    Except PyErr PyStr := do
  let preprocessed ← _preprocess_password sha password
  pwdContextHash preprocessed

/-- The `try:` body of `verify_password` from `src/app/core/security.py`,
parametrized by the `bcrypt.checkpw` primitive (an arbitrary, possibly
raising function): the empty-input guard returns `False`, then both strings
are UTF-8 encoded and passed to `checkpw`. -/
def verify_passwordBody (checkpw : Bytes → Bytes → Except PyErr Bool)
    (plain hashed : PyStr) : Except PyErr Bool :=
  if plain.isEmpty || hashed.isEmpty then .ok false
  else do
    let pb ← pyEncodeUtf8 plain
    let hb ← pyEncodeUtf8 hashed
    checkpw pb hb

/-- Function `verify_password` with its `except` clauses made explicit: the source
catches `UnicodeDecodeError`, `ValueError` and finally `Exception`, each
handler returning `False`, so every raised exception is mapped to
`.ok false`. -/
def verify_passwordExc (checkpw : Bytes → Bytes → Except PyErr Bool)
    (plain hashed : PyStr) : Except PyErr Bool :=
  match verify_passwordBody checkpw plain hashed with
  | .ok r => .ok r
  | .error .unicodeEncodeError => .ok false
  | .error .valueError => .ok false
  | .error .invalidId => .ok false

/-- Function `verify_password` from `src/app/core/security.py`, with the concrete
bcrypt primitive model. -/
def verify_password (plain hashed : PyStr) : Bool :=
  match verify_passwordExc bcryptCheckpw plain hashed with
  | .ok r => r
  | .error _ => false

/-! ### JWT (`create_access_token` / `decode_access_token`,
`src/app/core/security.py`)

python-jose is modelled as a perfect signature scheme: a token is the signed
payload together with the key and algorithm that signed it, and decoding
succeeds exactly when key and algorithm match and the `exp` claim is not in
the past.  Times are absolute Unix seconds (`Int`), and a `timedelta` is its
total number of seconds. -/

/-- The claim sets issued by this application: `{userId, userName}`
(`AuthService.create_token`). -/
structure JwtClaims where
  userId : String
  userName : String
deriving DecidableEq, Repr

/-- The encoded payload: the claims plus the absolute `exp` timestamp that
`create_access_token` adds. -/
structure JwtPayload where
  claims : JwtClaims
  exp : Int
deriving DecidableEq, Repr

/-- Model of a `jose.jwt` token: the payload plus the key and algorithm used
to sign it (a perfect, unforgeable signature). -/
structure JwtToken where
  payload : JwtPayload
  key : String
  alg : String
deriving DecidableEq, Repr

/-- Config constant `settings.SECRET_KEY` (`src/app/core/config.py`): an opaque configured
constant. -/
def SECRET_KEY : String := "SECRET_KEY"

/-- Config constant `settings.ALGORITHM` (`src/app/core/config.py`), default `"HS256"`. -/
def ALGORITHM : String := "HS256"

/-- Config constant `settings.ACCESS_TOKEN_EXPIRE_MINUTES` (`src/app/core/config.py`),
default `43200` minutes (30 days). -/
def ACCESS_TOKEN_EXPIRE_MINUTES : Int := 43200

/-- Python truthiness of an optional `timedelta`: `None` and the zero
timedelta are falsy, every non-zero timedelta is truthy. -/
def pyTruthyDelta : Option Int → Bool
  | none => false
  | some d => d != 0

/-- Function `create_access_token` from `src/app/core/security.py`.  `expires_delta`
is the optional `timedelta` argument (in seconds), `now` the current time:
`if expires_delta:` selects the configured default expiry whenever
`expires_delta` is `None` or the zero timedelta. -/
def create_access_token (data : JwtClaims) (expires_delta : Option Int)
    (now : Int) : JwtToken :=
  let expire : Int :=
    if pyTruthyDelta expires_delta then now + expires_delta.getD 0
    else now + 60 * ACCESS_TOKEN_EXPIRE_MINUTES
  { payload := { claims := data, exp := expire },
    key := SECRET_KEY, alg := ALGORITHM }

/-- Function `decode_access_token` from `src/app/core/security.py`:
`jwt.decode(token, SECRET_KEY, [ALGORITHM])` returns the payload, and any
`JWTError` (signature mismatch, wrong algorithm, or `exp` in the past — jose
rejects a token once `exp < now`) is mapped to `None`. -/
def decode_access_token (token : JwtToken) (now : Int) : Option JwtPayload :=
  if token.key = SECRET_KEY ∧ token.alg = ALGORITHM ∧ now ≤ token.payload.exp
  then some token.payload else none

/-! ### BSON ObjectIds and the document-store model

`bson.ObjectId` stringifies to a 24-character hexadecimal string, and
`ObjectId(s)` accepts exactly such strings, raising `InvalidId` otherwise.
Collections are lists of documents; `find_one` returns the first match, and
`update_one` / `delete_one` affect the first match only, reporting
matched/modified/deleted counts. -/

/-- Whether a character is a hexadecimal digit (`0-9a-fA-F`). -/
def isHexChar (c : Char) : Bool :=
  c.isDigit || ('a' ≤ c && c ≤ 'f') || ('A' ≤ c && c ≤ 'F')

/-- Validator `bson.ObjectId.is_valid` restricted to string input: a 24-character
hexadecimal string. -/
def isValidObjectId (s : String) : Bool :=
  s.length == 24 && s.data.all isHexChar

/-- A BSON ObjectId, carrying the invariant that its string form is a
24-character hex string. -/
structure OID where
  s : String
  hval : isValidObjectId s = true

instance : DecidableEq OID := fun a b =>
  if h : a.s = b.s then
    .isTrue (by cases a; cases b; cases h; rfl)
  else
    .isFalse (by intro hh; cases hh; exact h rfl)

/-- Constructor `ObjectId(s)`: raises `InvalidId` on a malformed id string. -/
def objectId (s : String) : Except PyErr OID :=
  if h : isValidObjectId s = true then .ok ⟨s, h⟩ else .error .invalidId

/-- A BSON value stored in a reference-typed field: normally an `ObjectId`,
but MongoDB is schemaless and `IspeakService.update_one` can store a plain
string there (an empty `tag` in the patch is `$set` without conversion). -/
inductive BsonRef where
  | oid (o : OID)
  | str (s : String)
deriving DecidableEq

/-- Python `str()` of a reference-typed field value. -/
def BsonRef.toStr : BsonRef → String
  | .oid o => o.s
  | .str s => s

/-- The `acknowledged/matchedCount/modifiedCount` dictionary the services
build from a Motor `update_one` result. -/
structure UpdateResult where
  acknowledged : Bool
  matchedCount : Nat
  modifiedCount : Nat
deriving DecidableEq, Repr

/-- The `acknowledged/deletedCount` dictionary the services build from a
Motor `delete_one` result. -/
structure DeleteResult where
  acknowledged : Bool
  deletedCount : Nat
deriving DecidableEq, Repr

/-- MongoDB `update_one(filter, {"$set": ...})` on a collection: rewrites the
first document matching the filter with `f`; `matched` counts the filter
match (0 or 1) and `modified` whether the rewrite actually changed the
document. -/
def mongoUpdateFirst {α : Type} [DecidableEq α] (m : α → Bool) (f : α → α) :
    List α → List α × Nat × Nat
  | [] => ([], 0, 0)
  | d :: ds =>
    if m d then
      (f d :: ds, 1, if f d = d then 0 else 1)
    else
      let r := mongoUpdateFirst m f ds
      (d :: r.1, r.2)

/-- MongoDB `delete_one(filter)` on a collection: removes the first document
matching the filter and reports the deleted count (0 or 1). -/
def mongoDeleteFirst {α : Type} (m : α → Bool) : List α → List α × Nat
  | [] => ([], 0)
  | d :: ds =>
    if m d then (ds, 1)
    else
      let r := mongoDeleteFirst m ds
      (d :: r.1, r.2)

/-! ### Visibility (`IspeakService._process_visibility`,
`src/app/services/ispeak_service.py`)

`_process_visibility` operates on an item dictionary: it reads
`item.get("type", "0")` (any value, not necessarily a string), derives an
author-id string from the `author` entry (a sub-dictionary's `_id`, a plain
value, or missing), and rewrites `content` and `title` in the redaction
cases. -/

/-- A Python value stored under the `"type"` key of an item dictionary: the
application writes strings there, but the model keeps non-string values
representable, since `item.get("type", "0")` is compared with `==` against
string literals and a non-string never equals a string in Python. -/
inductive PyVal where
  | str (s : String)
  | int (n : Int)
deriving DecidableEq, Repr

/-- The `author` entry of an item dictionary, as `_process_visibility` reads
it: a sub-dictionary whose `_id` may be present (already stringified) or
absent, a plain non-dict value (taken through `str()`), or missing
entirely (`item.get("author", {})` then yields an empty dict). -/
inductive AuthorField where
  | dict (id : Option String) (nickName avatar : Option String)
  | value (v : String)
  | absent
deriving DecidableEq, Repr

/-- The `tag` entry of a projected item: a sub-dictionary with display
fields, a plain value, or missing. -/
inductive TagField where
  | dict (id : Option String) (name bgColor : Option String)
  | value (v : String)
  | absent
deriving DecidableEq, Repr

/-- An ISpeak item dictionary as handled by `_process_visibility` and
produced by the `get_by_page` projection. -/
structure VisItem where
  _id : String
  typeField : Option PyVal
  author : AuthorField
  tag : TagField
  content : String
  title : String
  showComment : String
  createdAt : Nat
  updatedAt : Nat
deriving DecidableEq, Repr

/-- The author-id string `_process_visibility` derives:
`str(item.get("author", {}).get("_id", ""))` when the entry is a dict (or
missing, which defaults to the empty dict), else `str(item.get("author",
""))`. -/
def authorIdStr : AuthorField → String
  | .dict (some id) _ _ => id
  | .dict none _ _ => ""
  | .value v => v
  | .absent => ""

/-- Python falsiness of the optional current-user id: `None` and the empty
string are falsy (`if not current_user_id:`). -/
def pyFalsy : Option String → Bool
  | none => true
  | some s => s.isEmpty

/-- The fixed placeholder for tier `"1"`: "this content requires login". -/
def loginRequiredText : String := "该内容需登录后查看"

/-- The fixed placeholder for tier `"2"`: "this content is author-only". -/
def authorOnlyText : String := "该内容仅作者可见"

namespace IspeakService

/-- Method `IspeakService._process_visibility`: tier `"0"` (and any unrecognized
tier) passes the item through; tier `"1"` redacts `content`/`title` for a
falsy viewer id; tier `"2"` redacts unless the viewer id is truthy and equal
to the derived author id. -/
def _process_visibility (item : VisItem) (current_user_id : Option String) :
    VisItem :=
  let item_type := item.typeField.getD (.str "0")
  let author_id := authorIdStr item.author
  if item_type == .str "0" then item
  else if item_type == .str "1" then
    if pyFalsy current_user_id then
      { item with content := loginRequiredText, title := "" }
    else item
  else if item_type == .str "2" then
    if pyFalsy current_user_id || !(current_user_id.getD "" == author_id) then
      { item with content := authorOnlyText, title := "" }
    else item
  else item

end IspeakService

/-! ### Stored ISpeak documents and the service CRUD
(`src/app/services/ispeak_service.py`) -/

/-- A stored ISpeak document, as `IspeakService.add_one` inserts it. -/
structure SpeakDoc where
  _id : OID
  title : String
  content : String
  type : String
  tag : BsonRef
  showComment : String
  author : OID
  createdAt : Nat
  updatedAt : Nat
deriving DecidableEq

/-- The update payload of the `PATCH /ispeak/update` route
(`IspeakUpdate.model_dump(exclude_unset=True, exclude={"id"})`): only the
fields the client supplied are present. -/
structure SpeakPatch where
  title : Option String := none
  content : Option String := none
  type : Option String := none
  tag : Option String := none
  showComment : Option String := none
deriving DecidableEq

/-- Tag handling at the top of `IspeakService.update_one`: a present,
truthy (non-empty) `tag` must be a valid ObjectId string (else
`ValueError`) and is converted; a present empty `tag` is left as the plain
string; an absent `tag` stays absent. -/
def convertPatchTag (patch : SpeakPatch) : Except PyErr (Option BsonRef) :=
  match patch.tag with
  | none => .ok none
  | some t =>
    if t = "" then .ok (some (.str ""))
    else if h : isValidObjectId t = true then .ok (some (.oid ⟨t, h⟩))
    else .error .valueError

/-- The response dictionary `IspeakService.add_one` returns (all ids as
strings). -/
structure SpeakResp where
  _id : String
  title : String
  content : String
  type : String
  tag : String
  showComment : String
  author : String
  createdAt : Nat
  updatedAt : Nat
deriving DecidableEq, Repr

/-- The dictionary `IspeakService.find_by_id` returns: the stored document
with `_id`, `author` and `tag` passed through `str()` and every other field
untouched. -/
structure SpeakView where
  _id : String
  title : String
  content : String
  type : String
  tag : String
  showComment : String
  author : String
  createdAt : Nat
  updatedAt : Nat
deriving DecidableEq, Repr

/-- Stringification performed by `IspeakService.find_by_id` on a found
document. -/
def stringifyDoc (d : SpeakDoc) : SpeakView :=
  { _id := d._id.s, title := d.title, content := d.content, type := d.type,
    tag := d.tag.toStr, showComment := d.showComment, author := d.author.s,
    createdAt := d.createdAt, updatedAt := d.updatedAt }

namespace IspeakService

/-- Method `IspeakService.add_one`: validates the tag id
(`ValueError` if `ObjectId.is_valid` fails), builds the document with the
author and tag as ObjectIds and both timestamps set to now, inserts it, and
returns the response dictionary with string ids.  `newId` is the ObjectId
MongoDB assigns to the inserted document. -/
def add_one (db : List SpeakDoc) (author_id content tag_id title
    ispeak_type show_comment : String) (newId : OID) (now : Nat) :
    Except PyErr (SpeakResp × List SpeakDoc) := do
  if h : isValidObjectId tag_id = true then
    let auO ← objectId author_id
    let doc : SpeakDoc :=
      { _id := newId, title := title, content := content, type := ispeak_type,
        tag := .oid ⟨tag_id, h⟩, showComment := show_comment, author := auO,
        createdAt := now, updatedAt := now }
    pure ({ _id := newId.s, title := title, content := content,
            type := ispeak_type, tag := tag_id, showComment := show_comment,
            author := author_id, createdAt := now, updatedAt := now },
          db ++ [doc])
  else throw .valueError

/-- Method `IspeakService.update_one`: converts/validates the patch's tag,
stamps `updatedAt`, and issues a MongoDB `update_one` whose filter is
jointly `{_id: ObjectId(ispeak_id), author: ObjectId(author_id)}`. -/
def update_one (db : List SpeakDoc) (ispeak_id author_id : String)
    (patch : SpeakPatch) (now : Nat) :
    Except PyErr (UpdateResult × List SpeakDoc) := do
  let tagRef ← convertPatchTag patch
  let idO ← objectId ispeak_id
  let auO ← objectId author_id
  let r := mongoUpdateFirst (fun d => decide (d._id = idO ∧ d.author = auO))
    (fun d =>
      { d with
        title := patch.title.getD d.title,
        content := patch.content.getD d.content,
        type := patch.type.getD d.type,
        tag := tagRef.getD d.tag,
        showComment := patch.showComment.getD d.showComment,
        updatedAt := now }) db
  pure ({ acknowledged := true, matchedCount := r.2.1,
          modifiedCount := r.2.2 }, r.1)

/-- Method `IspeakService.update_status`: a MongoDB `update_one` with the
joint `{_id, author}` filter whose `$set` writes `showComment` and a fresh
`updatedAt`. -/
def update_status (db : List SpeakDoc) (ispeak_id author_id
    show_comment : String) (now : Nat) :
    Except PyErr (UpdateResult × List SpeakDoc) := do
  let idO ← objectId ispeak_id
  let auO ← objectId author_id
  let r := mongoUpdateFirst (fun d => decide (d._id = idO ∧ d.author = auO))
    (fun d => { d with showComment := show_comment, updatedAt := now }) db
  pure ({ acknowledged := true, matchedCount := r.2.1,
          modifiedCount := r.2.2 }, r.1)

/-- Method `IspeakService.delete_one`: a MongoDB `delete_one` with the joint
`{_id, author}` filter. -/
def delete_one (db : List SpeakDoc) (ispeak_id author_id : String) :
    Except PyErr (DeleteResult × List SpeakDoc) := do
  let idO ← objectId ispeak_id
  let auO ← objectId author_id
  let r := mongoDeleteFirst (fun d => decide (d._id = idO ∧ d.author = auO)) db
  pure ({ acknowledged := true, deletedCount := r.2 }, r.1)

/-- Method `IspeakService.find_by_id`: `find_one({"_id": ObjectId(id)})`
with string-conversion of the ids; no viewer parameter exists and no
visibility processing is applied. -/
def find_by_id (db : List SpeakDoc) (ispeak_id : String) :
    Except PyErr (Option SpeakView) := do
  let idO ← objectId ispeak_id
  pure ((db.find? (fun d => decide (d._id = idO))).map stringifyDoc)

end IspeakService

/-! ### API tokens (`src/app/services/token_service.py`) and the
token-posting route (`src/app/routers/ispeak.py`) -/

/-- A stored API-token document. -/
structure TokenDoc where
  _id : OID
  title : String
  value : String
  user : OID
  createdAt : Nat
  updatedAt : Nat
deriving DecidableEq

/-- The dictionary `TokenService.validate_token` returns on success: the
stored token with `_id` and `user` stringified. -/
structure TokenInfo where
  _id : String
  title : String
  value : String
  user : String
  createdAt : Nat
  updatedAt : Nat
deriving DecidableEq, Repr

namespace TokenService

/-- Method `TokenService.validate_token`:
`find_one({"title": title, "value": value})` over the whole collection (no
owner in the filter), with string-converted ids on a hit and `None` on a
miss. -/
def validate_token (db : List TokenDoc) (title value : String) :
    Option TokenInfo :=
  (db.find? (fun t => t.title == title && t.value == value)).map
    (fun t => { _id := t._id.s, title := t.title, value := t.value,
                user := t.user.s, createdAt := t.createdAt,
                updatedAt := t.updatedAt })

end TokenService

/-- HTTP error outcomes the modelled routes can produce, by status code. -/
inductive ApiErr where
  | badRequest
  | unauthorized
  | notFound
  | internal
deriving DecidableEq, Repr

/-- Request body of `POST /ispeak/addByToken`
(`IspeakCreateByToken`, `src/app/schemas/ispeak.py`): `token`, `tag` and
`content` are required; `title` is optional (default the empty string, and
may be `null`), `type` defaults to `"0"` and `showComment` to `"1"`. -/
structure IspeakCreateByToken where
  token : String
  tag : String
  content : String
  title : Option String := some ""
  type : String := "0"
  showComment : String := "1"
deriving DecidableEq

/-- Route handler `add_ispeak_by_token` (`src/app/routers/ispeak.py`):
validates the token with the fixed title `"speak"`, answers 401 when the
registry returns nothing, otherwise creates the entry with the token's
`user` as author (`ispeak_data.title or ""` supplies the title); a
`ValueError` from the service becomes a 400, and any other exception (such
as `InvalidId`) escapes as an internal error.  The pair always carries the
resulting ISpeak collection. -/
def add_ispeak_by_token (tokenDb : List TokenDoc) (speakDb : List SpeakDoc)
    (body : IspeakCreateByToken) (newId : OID) (now : Nat) :
    Except ApiErr SpeakResp × List SpeakDoc :=
  match TokenService.validate_token tokenDb "speak" body.token with
  | none => (.error .unauthorized, speakDb)
  | some token_info =>
    match IspeakService.add_one speakDb token_info.user body.content body.tag
        (body.title.getD "") body.type body.showComment newId now with
    | .ok (resp, db') => (.ok resp, db')
    | .error .valueError => (.error .badRequest, speakDb)
    | .error _ => (.error .internal, speakDb)

/-! ### Paginated public feed (`IspeakService.get_by_page`) -/

/-- A stored user document, restricted to the fields the `$lookup` +
`$project` pipeline of `get_by_page` reads. -/
structure UserDoc where
  _id : OID
  nickName : String
  avatar : String
deriving DecidableEq

/-- A stored tag document, restricted to the fields the pipeline reads. -/
structure TagDoc where
  _id : OID
  name : String
  bgColor : String
deriving DecidableEq

/-- The optional authenticated user as `get_current_user_optional` provides
it: a dictionary whose `userId`/`userName` come from `payload.get(...)` and
may individually be `None`. -/
structure CurrentUser where
  userId : Option String
  userName : Option String

/-- The `$lookup`/`$unwind`/`$project` stages of the `get_by_page` pipeline
applied to one document, combined with the string-conversion loop that
follows: author and tag display info joined by id (an empty sub-dictionary
when the referenced document is missing, thanks to
`preserveNullAndEmptyArrays`). -/
def projectItem (userDb : List UserDoc) (tagDb : List TagDoc)
    (d : SpeakDoc) : VisItem :=
  { _id := d._id.s,
    typeField := some (.str d.type),
    author := match userDb.find? (fun u => decide (u._id = d.author)) with
      | some u => .dict (some u._id.s) (some u.nickName) (some u.avatar)
      | none => .dict none none none,
    tag := match tagDb.find? (fun t => d.tag == .oid t._id) with
      | some t => .dict (some t._id.s) (some t.name) (some t.bgColor)
      | none => .dict none none none,
    content := d.content, title := d.title, showComment := d.showComment,
    createdAt := d.createdAt, updatedAt := d.updatedAt }

/-- The `{"$sort": {"createdAt": -1}}` stage: newest first. -/
def sortByCreatedDesc (l : List SpeakDoc) : List SpeakDoc :=
  l.mergeSort (fun a b => decide (b.createdAt ≤ a.createdAt))

/-- Viewer-id extraction at the top of `get_by_page`:
`current_user.get("userId") if current_user else None`. -/
def currentUserId : Option CurrentUser → Option String
  | some u => u.userId
  | none => none

/-- The `{total, items, isLogin}` dictionary `get_by_page` returns. -/
structure PageResult where
  total : Nat
  items : List VisItem
  isLogin : Option String
deriving DecidableEq

namespace IspeakService

/-- Method `IspeakService.get_by_page`: counts the author's documents,
sorts them newest-first, skips `(page - 1) * page_size`, limits to
`page_size`, joins display info, stringifies ids, and applies
`_process_visibility` per item with the optional viewer id
(`current_user.get("userId") if current_user else None`). -/
def get_by_page (speakDb : List SpeakDoc) (userDb : List UserDoc)
    (tagDb : List TagDoc) (author : String) (page page_size : Nat)
    (current_user : Option CurrentUser) : Except PyErr PageResult := do
  let auO ← objectId author
  let current_user_id := currentUserId current_user
  let matched := speakDb.filter (fun d => decide (d.author = auO))
  let total := matched.length
  let skip := (page - 1) * page_size
  let window := ((sortByCreatedDesc matched).drop skip).take page_size
  let items := window.map (fun d =>
    _process_visibility (projectItem userDb tagDb d) current_user_id)
  pure { total := total, items := items, isLogin := current_user_id }

end IspeakService

/-! ### Specification-side definitions

The two definitions below transcribe the visibility policy as worded by the
specification/claim (C2) and as amended after comparison with the source;
they exist to be compared against `IspeakService._process_visibility`. -/

/-- Redaction applied on tier `"1"`: content replaced by the login-required
placeholder, title cleared. -/
def redactLogin (item : VisItem) : VisItem :=
  { item with content := loginRequiredText, title := "" }

/-- Redaction applied on tier `"2"`: content replaced by the author-only
placeholder, title cleared. -/
def redactAuthorOnly (item : VisItem) : VisItem :=
  { item with content := authorOnlyText, title := "" }

/-- The visibility policy exactly as the specification's claim words it:
Public passes through; RequiresAuth passes through whenever a viewer id is
present (`some`); AuthorOnly passes through exactly when the viewer id
equals the entry's author id. -/
def visibilityPolicyClaimed (item : VisItem) (viewer : Option String) :
    VisItem :=
  let tier := item.typeField.getD (.str "0")
  if tier == .str "0" then item
  else if tier == .str "1" then
    if viewer.isSome then item else redactLogin item
  else if tier == .str "2" then
    if viewer == some (authorIdStr item.author) then item
    else redactAuthorOnly item
  else item

/-- The amended visibility policy: as claimed, except that a present but
empty viewer id counts as absent (RequiresAuth redacts it, and AuthorOnly
passes a viewer through only when the viewer id is non-empty and equal to
the author id). -/
def visibilityPolicyAmended (item : VisItem) (viewer : Option String) :
    VisItem :=
  let tier := item.typeField.getD (.str "0")
  if tier == .str "0" then item
  else if tier == .str "1" then
    match viewer with
    | some s => if s ≠ "" then item else redactLogin item
    | none => redactLogin item
  else if tier == .str "2" then
    match viewer with
    | some s =>
      if s ≠ "" && s == authorIdStr item.author then item
      else redactAuthorOnly item
    | none => redactAuthorOnly item
  else item

/-- Well-formedness of a patch's tag field: `IspeakService.update_one` does
not raise on it (absent, empty, or a valid ObjectId string). -/
def PatchTagOk (patch : SpeakPatch) : Prop :=
  ∃ r, convertPatchTag patch = .ok r

/-! ### Concrete sample values (used by witnesses and counterexamples) -/

/-- A sample ObjectId. -/
def oidA : OID := ⟨"aaaaaaaaaaaaaaaaaaaaaaaa", by decide⟩

/-- A second, distinct sample ObjectId. -/
def oidB : OID := ⟨"bbbbbbbbbbbbbbbbbbbbbbbb", by decide⟩

/-- A third sample ObjectId. -/
def oidC : OID := ⟨"cccccccccccccccccccccccc", by decide⟩

/-- A sample tag ObjectId. -/
def oidT : OID := ⟨"dddddddddddddddddddddddd", by decide⟩

/-- A fifth sample ObjectId, used as a freshly inserted id. -/
def oidN : OID := ⟨"eeeeeeeeeeeeeeeeeeeeeeee", by decide⟩

/-- A SHA-256 stand-in satisfying `IsHexDigestFn`: the constant digest of 64
`f` characters. -/
def shaConst : Bytes → PyStr := fun _ => List.replicate 64 102

/-- A sample RequiresAuth item with distinctive content and title. -/
def sampleItem1 : VisItem :=
  { _id := oidA.s, typeField := some (.str "1"),
    author := .dict (some oidB.s) (some "nick") (some "ava"),
    tag := .dict (some oidT.s) (some "life") (some "#fff"),
    content := "hello", title := "t1", showComment := "1",
    createdAt := 10, updatedAt := 10 }

/-- A sample stored ISpeak document owned by `oidB`. -/
def sampleDoc1 : SpeakDoc :=
  { _id := oidA, title := "t1", content := "hello", type := "0",
    tag := .oid oidT, showComment := "1", author := oidB,
    createdAt := 10, updatedAt := 10 }

/-- A second stored document for pagination samples (same author, later). -/
def sampleDocAt (id : OID) (t : Nat) : SpeakDoc :=
  { _id := id, title := "t", content := "c", type := "0",
    tag := .oid oidT, showComment := "1", author := oidB,
    createdAt := t, updatedAt := t }

/-- A sample stored API token owned by `oidB`. -/
def sampleToken1 : TokenDoc :=
  { _id := oidC, title := "speak", value := "abc123", user := oidB,
    createdAt := 1, updatedAt := 1 }

/-! ## Helper lemmas -/

theorem OID.eq_iff {a b : OID} : a = b ↔ a.s = b.s := by
  constructor
  · intro h; cases h; rfl
  · intro h; cases a; cases b; cases h; rfl

theorem objectId_ok {s : String} (h : isValidObjectId s = true) :
    objectId s = .ok ⟨s, h⟩ := by
  simp [objectId, h]

theorem objectId_roundtrip (o : OID) : objectId o.s = .ok o := by
  cases o with
  | mk s h => simp [objectId, h]

theorem mongoUpdateFirst_nomatch {α : Type} [DecidableEq α]
    {m : α → Bool} {f : α → α} {l : List α} (h : ∀ d ∈ l, m d = false) :
    mongoUpdateFirst m f l = (l, 0, 0) := by
  induction l with
  | nil => rfl
  | cons d ds ih =>
    have hd := h d (by simp)
    have hds : ∀ x ∈ ds, m x = false := fun x hx => h x (by simp [hx])
    simp [mongoUpdateFirst, hd, ih hds]

theorem mongoDeleteFirst_nomatch {α : Type}
    {m : α → Bool} {l : List α} (h : ∀ d ∈ l, m d = false) :
    mongoDeleteFirst m l = (l, 0) := by
  induction l with
  | nil => rfl
  | cons d ds ih =>
    have hd := h d (by simp)
    have hds : ∀ x ∈ ds, m x = false := fun x hx => h x (by simp [hx])
    simp [mongoDeleteFirst, hd, ih hds]

theorem mongoUpdateFirst_found {α : Type} [DecidableEq α]
    (m : α → Bool) (f : α → α) (pre : List α) (d : α) (post : List α)
    (hpre : ∀ x ∈ pre, m x = false) (hd : m d = true) :
    mongoUpdateFirst m f (pre ++ d :: post) =
      (pre ++ f d :: post, 1, if f d = d then 0 else 1) := by
  induction pre with
  | nil => simp [mongoUpdateFirst, hd]
  | cons x xs ih =>
    have hx := hpre x (by simp)
    have hxs : ∀ y ∈ xs, m y = false := fun y hy => hpre y (by simp [hy])
    simp [mongoUpdateFirst, hx, ih hxs]

/-! ## C2 — visibility policy -/

/-- C2 (counterexample): the claim says a RequiresAuth (tier `"1"`) entry is
rendered unchanged whenever a viewer id is present; the code redacts it for
the present-but-empty viewer id `""` (Python falsiness), so the code
disagrees with the claimed policy at this input. -/
theorem claimC2_counterexample :
    IspeakService._process_visibility sampleItem1 (some "") ≠
        visibilityPolicyClaimed sampleItem1 (some "") ∧
      (IspeakService._process_visibility sampleItem1 (some "")).content =
        loginRequiredText ∧
      (visibilityPolicyClaimed sampleItem1 (some "")).content = "hello" := by
  refine ⟨?_, by decide, by decide⟩
  decide

/-- C2 (amended): `_process_visibility` implements exactly the claimed
three-tier policy with "viewer id present" strengthened to "viewer id
present and non-empty": Public and unknown tiers pass through; RequiresAuth
redacts content and title exactly for an absent or empty viewer id;
AuthorOnly redacts unless the viewer id is non-empty and equal to the
entry's author id. -/
theorem claimC2_amended (item : VisItem) (cu : Option String) :
    IspeakService._process_visibility item cu =
      visibilityPolicyAmended item cu := by
  unfold IspeakService._process_visibility visibilityPolicyAmended
  cases cu with
  | none => simp [pyFalsy, redactLogin, redactAuthorOnly]
  | some s =>
    by_cases hs : s = ""
    · subst hs
      simp [pyFalsy, String.isEmpty_iff, redactLogin, redactAuthorOnly]
    · by_cases ha : s = authorIdStr item.author
      · simp [pyFalsy, String.isEmpty_iff, ha, hs, redactLogin,
          redactAuthorOnly]
      · simp [pyFalsy, String.isEmpty_iff, ha, hs, redactLogin,
          redactAuthorOnly]

/-! ## C10 — unrecognized tiers pass through -/

/-- C10: whenever the `type` entry is absent or is any value other than the
strings `"0"`, `"1"`, `"2"` — e.g. the integer `0` or the string `"3"` —
`_process_visibility` returns the item unchanged, for every viewer.
(An absent `type` defaults to `"0"`, i.e. Public, which also passes
through.) -/
theorem claimC10_unknown_tier_passthrough (item : VisItem)
    (cu : Option String)
    (h : ∀ s : String, s ∈ (["0", "1", "2"] : List String) →
      item.typeField ≠ some (.str s)) :
    IspeakService._process_visibility item cu = item := by
  unfold IspeakService._process_visibility
  cases htf : item.typeField with
  | none => simp
  | some v =>
    have h0 := h "0" (by simp)
    have h1 := h "1" (by simp)
    have h2 := h "2" (by simp)
    rw [htf] at h0 h1 h2
    have e0 : ¬v = PyVal.str "0" := fun hv => h0 (by rw [hv])
    have e1 : ¬v = PyVal.str "1" := fun hv => h1 (by rw [hv])
    have e2 : ¬v = PyVal.str "2" := fun hv => h2 (by rw [hv])
    simp [e0, e1, e2]

/-- C10 (witness): the item with the integer `0` in its `type` field, and
the item with the string `"3"`, both pass through unchanged for the
anonymous viewer. -/
theorem claimC10_witness :
    (∀ s : String, s ∈ (["0", "1", "2"] : List String) →
        ({ sampleItem1 with typeField := some (.int 0) } : VisItem).typeField ≠
          some (.str s)) ∧
      IspeakService._process_visibility
          { sampleItem1 with typeField := some (.int 0) } none =
        { sampleItem1 with typeField := some (.int 0) } :=
  ⟨by decide,
   claimC10_unknown_tier_passthrough
     { sampleItem1 with typeField := some (.int 0) } none (by decide)⟩

/-! ## C8 — credential verification never raises -/

/-- C8: for every behavior of the underlying bcrypt primitive and all
inputs, `verify_password` returns a boolean rather than propagating an
exception; empty inputs verify as `false`; a digest that does not parse as
a bcrypt digest (here: first byte `b` instead of `$`) verifies as `false`
rather than raising; and a non-UTF8-encodable plaintext (leading lone
surrogate) verifies as `false` rather than raising. -/
theorem claimC8_verify_total (checkpw : Bytes → Bytes → Except PyErr Bool)
    (plain hashed : PyStr) :
    (∃ b, verify_passwordExc checkpw plain hashed = .ok b) ∧
      verify_passwordExc checkpw [] hashed = .ok false ∧
      verify_passwordExc checkpw plain [] = .ok false ∧
      verify_password plain (98 :: hashed) = false ∧
      verify_passwordExc checkpw (0xD800 :: plain) hashed = .ok false := by
  refine ⟨?_, ?_, ?_, ?_, ?_⟩
  · cases h : verify_passwordBody checkpw plain hashed with
    | ok r => exact ⟨r, by simp [verify_passwordExc, h]⟩
    | error e => exact ⟨false, by cases e <;> simp [verify_passwordExc, h]⟩
  · simp [verify_passwordExc, verify_passwordBody]
  · simp [verify_passwordExc, verify_passwordBody]
  · have h98 : isSurrogate 98 = false := by decide
    have h98e : utf8EncodeCp 98 = [98] := by decide
    have h98ne : ¬(98 = 36) := by decide
    unfold verify_password verify_passwordExc verify_passwordBody
    by_cases hp : plain.isEmpty
    · simp [hp]
    · by_cases hsur : plain.any isSurrogate
      · simp [hp, pyEncodeUtf8, hsur, Bind.bind, Except.bind]
      · by_cases hsh : hashed.any isSurrogate
        · simp [hp, pyEncodeUtf8, hsur, hsh, h98, Bind.bind, Except.bind]
        · simp [hp, pyEncodeUtf8, hsur, hsh, h98, h98e, h98ne,
            bcryptCheckpw, Bind.bind, Except.bind]
  · have hsd : isSurrogate 0xD800 = true := by decide
    by_cases hh : hashed.isEmpty
    · simp [verify_passwordExc, verify_passwordBody, hh]
    · simp [verify_passwordExc, verify_passwordBody, hh, pyEncodeUtf8,
        hsd, Bind.bind, Except.bind]

/-! ## C6 — JWT round-trip and the falsy zero timedelta -/

/-- C6 (counterexample): the claim says a token issued with ttl = 0 fails
verification after a delay of one time unit; in the code `timedelta(0)` is
falsy, so `create_access_token` silently substitutes the configured default
expiry (43200 minutes) and the token still decodes successfully one second
after issuance. -/
theorem claimC6_counterexample :
    decode_access_token (create_access_token ⟨"u", "n"⟩ (some 0) 0) 1 =
      some ⟨⟨"u", "n"⟩, 2592000⟩ := by decide

/-- C6 (amended): decoding immediately after default issuance yields the
claims; a token issued with ttl = 0 receives the default expiry (the zero
timedelta is falsy) and therefore still decodes after a one-unit delay;
and a token issued with a positive ttl `d` fails verification at any delay
strictly greater than `d`. -/
theorem claimC6_amended (c : JwtClaims) (now d delay : Int)
    (hd : 0 < d) (hdel : d < delay) :
    decode_access_token (create_access_token c none now) now =
        some ⟨c, now + 60 * ACCESS_TOKEN_EXPIRE_MINUTES⟩ ∧
      decode_access_token (create_access_token c (some 0) now) (now + 1) =
        some ⟨c, now + 60 * ACCESS_TOKEN_EXPIRE_MINUTES⟩ ∧
      decode_access_token (create_access_token c (some d) now)
        (now + delay) = none := by
  have hd0 : (d != 0) = true := by
    simp only [bne_iff_ne, ne_eq]
    omega
  have hexp1 : now ≤ now + 60 * ACCESS_TOKEN_EXPIRE_MINUTES := by
    unfold ACCESS_TOKEN_EXPIRE_MINUTES
    omega
  have hexp2 : now + 1 ≤ now + 60 * ACCESS_TOKEN_EXPIRE_MINUTES := by
    unfold ACCESS_TOKEN_EXPIRE_MINUTES
    omega
  have hlt : ¬(now + delay ≤ now + d) := by omega
  refine ⟨?_, ?_, ?_⟩
  · simp [create_access_token, decode_access_token, pyTruthyDelta, hexp1]
  · simp [create_access_token, decode_access_token, pyTruthyDelta, hexp2]
  · simp [create_access_token, decode_access_token, pyTruthyDelta, hd0, hlt]

/-- C6 (witness): the amended statement at concrete claims, issue time 0,
ttl 5 and delay 6. -/
theorem claimC6_witness :
    (0 : Int) < 5 ∧ (5 : Int) < 6 ∧
      (decode_access_token (create_access_token ⟨"u", "n"⟩ none 0) 0 =
          some ⟨⟨"u", "n"⟩, 0 + 60 * ACCESS_TOKEN_EXPIRE_MINUTES⟩ ∧
        decode_access_token (create_access_token ⟨"u", "n"⟩ (some 0) 0)
            (0 + 1) =
          some ⟨⟨"u", "n"⟩, 0 + 60 * ACCESS_TOKEN_EXPIRE_MINUTES⟩ ∧
        decode_access_token (create_access_token ⟨"u", "n"⟩ (some 5) 0)
          (0 + 6) = none) :=
  ⟨by decide, by decide, claimC6_amended ⟨"u", "n"⟩ 0 5 6 (by decide) (by decide)⟩

/-! ## C5 — single-entry lookup bypasses policy -/

/-- C5 (counterexample): the claim says `find_by_id` "returns None exactly
when no entry has that id"; for the malformed id string `"x"` no entry has
that id (the store is even empty), yet the call raises `InvalidId`
(`ObjectId("x")`) instead of returning `None`. -/
theorem claimC5_counterexample :
    IspeakService.find_by_id [] "x" = .error .invalidId ∧
      IspeakService.find_by_id [] "x" ≠ .ok none := by decide

/-- C5 (amended): for every well-formed ObjectId string, `find_by_id`
returns the first stored entry with that id, with content, title, type and
commentable flag untouched and only the ids stringified — no viewer
parameter exists, no authentication and no visibility redaction is applied
for any tier — and it returns `None` exactly when no stored entry has that
id.  (A malformed id string instead raises `InvalidId`; see the
counterexample.) -/
theorem claimC5_amended (db : List SpeakDoc) (id : String)
    (h : isValidObjectId id = true) :
    IspeakService.find_by_id db id =
        .ok ((db.find? (fun d => decide (d._id.s = id))).map stringifyDoc) ∧
      (IspeakService.find_by_id db id = .ok none ↔
        ∀ d ∈ db, d._id.s ≠ id) ∧
      ∀ d : SpeakDoc, (stringifyDoc d).content = d.content ∧
        (stringifyDoc d).title = d.title ∧ (stringifyDoc d).type = d.type ∧
        (stringifyDoc d).showComment = d.showComment := by
  have hpred : (fun d : SpeakDoc => decide (d._id = (⟨id, h⟩ : OID))) =
      (fun d : SpeakDoc => decide (d._id.s = id)) := by
    funext d
    simp [OID.eq_iff]
  have h1 : IspeakService.find_by_id db id =
      .ok ((db.find? (fun d => decide (d._id.s = id))).map stringifyDoc) := by
    unfold IspeakService.find_by_id
    rw [objectId_ok h]
    simp only [Bind.bind, Except.bind, Pure.pure, Except.pure, hpred]
  refine ⟨h1, ?_, fun d => ⟨rfl, rfl, rfl, rfl⟩⟩
  rw [h1]
  simp [List.find?_eq_none]

/-- C5 (witness): the amended statement at a one-entry store and its own
id. -/
theorem claimC5_witness :
    isValidObjectId oidA.s = true ∧
      (IspeakService.find_by_id [sampleDoc1] oidA.s =
          .ok ((([sampleDoc1] : List SpeakDoc).find?
              (fun d => decide (d._id.s = oidA.s))).map stringifyDoc) ∧
        (IspeakService.find_by_id [sampleDoc1] oidA.s = .ok none ↔
          ∀ d ∈ ([sampleDoc1] : List SpeakDoc), d._id.s ≠ oidA.s) ∧
        ∀ d : SpeakDoc, (stringifyDoc d).content = d.content ∧
          (stringifyDoc d).title = d.title ∧
          (stringifyDoc d).type = d.type ∧
          (stringifyDoc d).showComment = d.showComment) :=
  ⟨by decide, claimC5_amended [sampleDoc1] oidA.s (by decide)⟩

/-! ## C3 — ownership-scoped mutation -/

/-- C3: when every stored entry carrying the requested id is owned by
someone other than the requester (in particular an entry owned by a
different user B, but also no entry at all), `update_one` and `delete_one`
— which filter jointly by `(id, author)` — report matchedCount = 0 and
deletedCount = 0, leave the store unchanged, and their outcomes coincide
exactly with those for an id that matches nothing; no permission-specific
outcome is produced. -/
theorem claimC3_ownership_scoped (db : List SpeakDoc) (id A : String)
    (patch : SpeakPatch) (now : Nat)
    (hid : isValidObjectId id = true) (hA : isValidObjectId A = true)
    (htag : PatchTagOk patch)
    (hown : ∀ d ∈ db, d._id.s = id → d.author.s ≠ A) :
    IspeakService.update_one db id A patch now =
        .ok ({ acknowledged := true, matchedCount := 0,
               modifiedCount := 0 }, db) ∧
      IspeakService.delete_one db id A =
        .ok ({ acknowledged := true, deletedCount := 0 }, db) ∧
      ∀ id2 : String, isValidObjectId id2 = true →
        (∀ d ∈ db, d._id.s ≠ id2) →
        IspeakService.update_one db id2 A patch now =
            IspeakService.update_one db id A patch now ∧
          IspeakService.delete_one db id2 A =
            IspeakService.delete_one db id A := by
  obtain ⟨r, hr⟩ := htag
  have hfalse : ∀ (i : String) (hi : isValidObjectId i = true),
      (∀ d ∈ db, d._id.s = i → d.author.s ≠ A) →
      ∀ d ∈ db,
        (decide (d._id = (⟨i, hi⟩ : OID) ∧ d.author = (⟨A, hA⟩ : OID))) =
          false := by
    intro i hi hdb d hd
    simp only [decide_eq_false_iff_not]
    rintro ⟨h1, h2⟩
    exact hdb d hd (congrArg OID.s h1) (congrArg OID.s h2)
  have hupd : ∀ (i : String) (hi : isValidObjectId i = true),
      (∀ d ∈ db, d._id.s = i → d.author.s ≠ A) →
      IspeakService.update_one db i A patch now =
        .ok ({ acknowledged := true, matchedCount := 0,
               modifiedCount := 0 }, db) := by
    intro i hi hdb
    unfold IspeakService.update_one
    rw [hr, objectId_ok hi, objectId_ok hA]
    simp only [Bind.bind, Except.bind, Pure.pure, Except.pure]
    rw [mongoUpdateFirst_nomatch (hfalse i hi hdb)]
  have hdel : ∀ (i : String) (hi : isValidObjectId i = true),
      (∀ d ∈ db, d._id.s = i → d.author.s ≠ A) →
      IspeakService.delete_one db i A =
        .ok ({ acknowledged := true, deletedCount := 0 }, db) := by
    intro i hi hdb
    unfold IspeakService.delete_one
    rw [objectId_ok hi, objectId_ok hA]
    simp only [Bind.bind, Except.bind, Pure.pure, Except.pure]
    rw [mongoDeleteFirst_nomatch (hfalse i hi hdb)]
  refine ⟨hupd id hid hown, hdel id hid hown, ?_⟩
  intro id2 h2 hno
  have hown2 : ∀ d ∈ db, d._id.s = id2 → d.author.s ≠ A :=
    fun d hd hh => absurd hh (hno d hd)
  exact ⟨(hupd id2 h2 hown2).trans (hupd id hid hown).symm,
         (hdel id2 h2 hown2).trans (hdel id hid hown).symm⟩

/-- C3 (witness): requester `oidC` against a store holding one entry owned
by `oidB` under id `oidA`, with an empty patch; and the fresh id `oidN`
matching nothing. -/
theorem claimC3_witness :
    isValidObjectId oidA.s = true ∧ isValidObjectId oidC.s = true ∧
      PatchTagOk {} ∧
      (∀ d ∈ ([sampleDoc1] : List SpeakDoc),
        d._id.s = oidA.s → d.author.s ≠ oidC.s) ∧
      (IspeakService.update_one [sampleDoc1] oidA.s oidC.s {} 0 =
          .ok ({ acknowledged := true, matchedCount := 0,
                 modifiedCount := 0 }, [sampleDoc1]) ∧
        IspeakService.delete_one [sampleDoc1] oidA.s oidC.s =
          .ok ({ acknowledged := true, deletedCount := 0 }, [sampleDoc1]) ∧
        ∀ id2 : String, isValidObjectId id2 = true →
          (∀ d ∈ ([sampleDoc1] : List SpeakDoc), d._id.s ≠ id2) →
          IspeakService.update_one [sampleDoc1] id2 oidC.s {} 0 =
              IspeakService.update_one [sampleDoc1] oidA.s oidC.s {} 0 ∧
            IspeakService.delete_one [sampleDoc1] id2 oidC.s =
              IspeakService.delete_one [sampleDoc1] oidA.s oidC.s) :=
  ⟨by decide, by decide, ⟨none, rfl⟩, by decide,
   claimC3_ownership_scoped [sampleDoc1] oidA.s oidC.s {} 0 (by decide)
     (by decide) ⟨none, rfl⟩ (by decide)⟩

/-! ## C7 — update_status applied twice -/

/-- C7 (counterexample): the claim says the second identical
`update_status` call reports modifiedCount = 0; because the `$set` also
rewrites `updatedAt` with the current time, the second call (one time unit
later) still modifies the document and reports modifiedCount = 1. -/
theorem claimC7_counterexample :
    IspeakService.update_status [sampleDoc1] oidA.s oidB.s "1" 0 =
        .ok ({ acknowledged := true, matchedCount := 1, modifiedCount := 1 },
          [{ sampleDoc1 with showComment := "1", updatedAt := 0 }]) ∧
      IspeakService.update_status
          [{ sampleDoc1 with showComment := "1", updatedAt := 0 }]
          oidA.s oidB.s "1" 1 =
        .ok ({ acknowledged := true, matchedCount := 1, modifiedCount := 1 },
          [{ sampleDoc1 with showComment := "1", updatedAt := 1 }]) := by
  decide

/-- C7 (amended): calling `update_status` twice in succession with the same
flag on an entry owned by the author yields matchedCount = 1 both times; on
the second call modifiedCount = 0 holds exactly when the second call's
timestamp equals the first call's — with any later timestamp the second
call reports modifiedCount = 1, because `updatedAt` is refreshed on every
call. -/
theorem claimC7_amended (pre post : List SpeakDoc) (d : SpeakDoc)
    (flag : String) (now1 now2 : Nat)
    (hpre : ∀ x ∈ pre, ¬(x._id = d._id ∧ x.author = d.author)) :
    ∃ r1 db1 r2 db2,
      IspeakService.update_status (pre ++ d :: post) d._id.s d.author.s
          flag now1 = .ok (r1, db1) ∧
      IspeakService.update_status db1 d._id.s d.author.s flag now2 =
        .ok (r2, db2) ∧
      r1.matchedCount = 1 ∧ r2.matchedCount = 1 ∧
      r2.modifiedCount = (if now2 = now1 then 0 else 1) ∧
      db2 = pre ++ { d with showComment := flag, updatedAt := now2 } :: post := by
  have hprefalse : ∀ x ∈ pre,
      (decide (x._id = d._id ∧ x.author = d.author)) = false := by
    intro x hx
    simp only [decide_eq_false_iff_not]
    exact hpre x hx
  have h1 : IspeakService.update_status (pre ++ d :: post) d._id.s d.author.s
      flag now1 =
      .ok ({ acknowledged := true, matchedCount := 1,
             modifiedCount :=
               if ({ d with showComment := flag, updatedAt := now1 } :
                   SpeakDoc) = d then 0 else 1 },
           pre ++ { d with showComment := flag, updatedAt := now1 } :: post) := by
    unfold IspeakService.update_status
    rw [objectId_roundtrip, objectId_roundtrip]
    simp only [Bind.bind, Except.bind, Pure.pure, Except.pure]
    rw [mongoUpdateFirst_found _ _ pre d post hprefalse (by simp)]
  have h2 : IspeakService.update_status
      (pre ++ { d with showComment := flag, updatedAt := now1 } :: post)
      d._id.s d.author.s flag now2 =
      .ok ({ acknowledged := true, matchedCount := 1,
             modifiedCount := if now2 = now1 then 0 else 1 },
           pre ++ { d with showComment := flag, updatedAt := now2 } :: post) := by
    unfold IspeakService.update_status
    rw [objectId_roundtrip, objectId_roundtrip]
    simp only [Bind.bind, Except.bind, Pure.pure, Except.pure]
    rw [mongoUpdateFirst_found _ _ pre
      ({ d with showComment := flag, updatedAt := now1 }) post hprefalse
      (by simp)]
    have hiff : (({ d with showComment := flag, updatedAt := now2 } :
          SpeakDoc) = { d with showComment := flag, updatedAt := now1 }) ↔
        now2 = now1 := by
      constructor
      · intro hh
        exact congrArg SpeakDoc.updatedAt hh
      · intro hh
        rw [hh]
    by_cases hnn : now2 = now1
    · simp [hnn]
    · rw [if_neg (fun hh => hnn (hiff.mp hh)), if_neg hnn]
  exact ⟨_, _, _, _, h1, h2, rfl, rfl, rfl, rfl⟩

/-- C7 (witness): the amended statement on a singleton store, with
timestamps 0 and 1. -/
theorem claimC7_witness :
    (∀ x ∈ ([] : List SpeakDoc),
        ¬(x._id = sampleDoc1._id ∧ x.author = sampleDoc1.author)) ∧
      ∃ r1 db1 r2 db2,
        IspeakService.update_status ([] ++ sampleDoc1 :: [])
            sampleDoc1._id.s sampleDoc1.author.s "1" 0 = .ok (r1, db1) ∧
        IspeakService.update_status db1 sampleDoc1._id.s
            sampleDoc1.author.s "1" 1 = .ok (r2, db2) ∧
        r1.matchedCount = 1 ∧ r2.matchedCount = 1 ∧
        r2.modifiedCount = (if 1 = 0 then 0 else 1) ∧
        db2 =
          [] ++ { sampleDoc1 with showComment := "1", updatedAt := 1 } :: [] :=
  ⟨by simp, claimC7_amended [] [] sampleDoc1 "1" 0 1 (by simp)⟩

/-! ## C4 — posting via API token -/

/-- C4: `add_ispeak_by_token` authenticates by looking the token up
globally by the pair (title = "speak", value) — no owner in the filter.  If
no stored token matches the pair, the route answers 401 and the ISpeak
store is unchanged (no entry created); if a token matches, the created
entry's author is exactly the matched token's `user`, both in the response
and in the stored document. -/
theorem claimC4_token_posting (tokenDb : List TokenDoc)
    (speakDb : List SpeakDoc) (body : IspeakCreateByToken) (newId : OID)
    (now : Nat) (htag : isValidObjectId body.tag = true) :
    (tokenDb.find? (fun t => t.title == "speak" && t.value == body.token) =
        none →
      add_ispeak_by_token tokenDb speakDb body newId now =
        (.error .unauthorized, speakDb)) ∧
    (∀ t : TokenDoc,
      tokenDb.find? (fun t => t.title == "speak" && t.value == body.token) =
        some t →
      add_ispeak_by_token tokenDb speakDb body newId now =
        (.ok { _id := newId.s, title := body.title.getD "",
               content := body.content, type := body.type, tag := body.tag,
               showComment := body.showComment, author := t.user.s,
               createdAt := now, updatedAt := now },
         speakDb ++
           [{ _id := newId, title := body.title.getD "",
              content := body.content, type := body.type,
              tag := .oid ⟨body.tag, htag⟩,
              showComment := body.showComment, author := t.user,
              createdAt := now, updatedAt := now }])) := by
  constructor
  · intro hnone
    unfold add_ispeak_by_token TokenService.validate_token
    rw [hnone]
    rfl
  · intro t hft
    unfold add_ispeak_by_token TokenService.validate_token
    rw [hft]
    simp only [Option.map_some']
    unfold IspeakService.add_one
    rw [dif_pos htag, objectId_roundtrip]
    simp only [Bind.bind, Except.bind, Pure.pure, Except.pure]

/-- C4 (witness): the stored token `{title := "speak", value := "abc123",
user := oidB}` authenticates the posting and the entry's author is `oidB`;
the wrong value `"wrong"` yields 401 and no entry. -/
theorem claimC4_witness :
    isValidObjectId
        ({ token := "abc123", tag := oidT.s, content := "hi" } :
          IspeakCreateByToken).tag = true ∧
      (([sampleToken1] : List TokenDoc).find?
          (fun t => t.title == "speak" &&
            t.value == ({ token := "abc123", tag := oidT.s, content := "hi" } :
              IspeakCreateByToken).token) = some sampleToken1 ∧
        add_ispeak_by_token [sampleToken1] []
            { token := "abc123", tag := oidT.s, content := "hi" } oidN 7 =
          (.ok { _id := oidN.s, title := "", content := "hi", type := "0",
                 tag := oidT.s, showComment := "1", author := oidB.s,
                 createdAt := 7, updatedAt := 7 },
           [] ++ [{ _id := oidN, title := "", content := "hi", type := "0",
                    tag := .oid oidT, showComment := "1", author := oidB,
                    createdAt := 7, updatedAt := 7 }])) ∧
      add_ispeak_by_token [sampleToken1] []
          { token := "wrong", tag := oidT.s, content := "hi" } oidN 7 =
        (.error .unauthorized, []) := by
  have h := claimC4_token_posting [sampleToken1] []
    { token := "abc123", tag := oidT.s, content := "hi" } oidN 7 (by decide)
  have h2 := claimC4_token_posting [sampleToken1] []
    { token := "wrong", tag := oidT.s, content := "hi" } oidN 7 (by decide)
  refine ⟨by decide, ⟨by decide, ?_⟩, h2.1 (by decide)⟩
  have := h.2 sampleToken1 (by decide)
  simpa [sampleToken1, oidB, oidT] using this

/-! ## C9 — public-feed pagination -/

theorem process_visibility_createdAt (item : VisItem) (cu : Option String) :
    (IspeakService._process_visibility item cu).createdAt = item.createdAt := by
  unfold IspeakService._process_visibility
  dsimp only
  split_ifs <;> rfl

theorem sortByCreatedDesc_pairwise (l : List SpeakDoc) :
    (sortByCreatedDesc l).Pairwise
      (fun a b => b.createdAt ≤ a.createdAt) := by
  have h := @List.sorted_mergeSort SpeakDoc
    (fun a b : SpeakDoc => decide (b.createdAt ≤ a.createdAt))
    (fun a b c hab hbc => by
      simp only [decide_eq_true_eq] at hab hbc ⊢
      omega)
    (fun a b => by
      simpa using Nat.le_total b.createdAt a.createdAt)
    l
  exact h.imp (fun hab => by simpa using hab)

/-- C9: for a valid author id, `get_by_page` returns total = the number of
the author's stored entries, at most `page_size` items (exactly
`min page_size (total - (page-1)*page_size)`), the items ordered by
`createdAt` descending, and the returned window is the slice of the sorted
entries that skips `(page-1)*page_size` of them — each item then joined
with display info and passed through the visibility policy. -/
theorem claimC9_pagination (speakDb : List SpeakDoc) (userDb : List UserDoc)
    (tagDb : List TagDoc) (auO : OID) (page page_size : Nat)
    (cu : Option CurrentUser)
    (hp : 1 ≤ page) (hs1 : 1 ≤ page_size) (hs2 : page_size ≤ 100) :
    ∃ res : PageResult,
      IspeakService.get_by_page speakDb userDb tagDb auO.s page page_size
          cu = .ok res ∧
      res.total =
        (speakDb.filter (fun d => decide (d.author = auO))).length ∧
      res.items.length =
        min page_size (res.total - (page - 1) * page_size) ∧
      res.items.length ≤ page_size ∧
      res.items.Pairwise (fun a b => b.createdAt ≤ a.createdAt) ∧
      res.items =
        (((sortByCreatedDesc
              (speakDb.filter (fun d => decide (d.author = auO)))).drop
            ((page - 1) * page_size)).take page_size).map
          (fun d => IspeakService._process_visibility
            (projectItem userDb tagDb d) (currentUserId cu)) ∧
      res.isLogin = currentUserId cu := by
  have hget : IspeakService.get_by_page speakDb userDb tagDb auO.s page
      page_size cu = .ok
      { total :=
          (speakDb.filter (fun d => decide (d.author = auO))).length,
        items :=
          (((sortByCreatedDesc
                (speakDb.filter (fun d => decide (d.author = auO)))).drop
              ((page - 1) * page_size)).take page_size).map
            (fun d => IspeakService._process_visibility
              (projectItem userDb tagDb d) (currentUserId cu)),
        isLogin := currentUserId cu } := by
    unfold IspeakService.get_by_page
    rw [objectId_roundtrip]
    simp only [Bind.bind, Except.bind, Pure.pure, Except.pure]
  refine ⟨_, hget, rfl, ?_, ?_, ?_, rfl, rfl⟩
  · simp [List.length_take, List.length_drop, sortByCreatedDesc,
      List.length_mergeSort]
  · simp only [List.length_map, List.length_take]
    exact Nat.min_le_left _ _
  · rw [List.pairwise_map]
    have hsorted := sortByCreatedDesc_pairwise
      (speakDb.filter (fun d => decide (d.author = auO)))
    have hsub :
        (((sortByCreatedDesc
              (speakDb.filter (fun d => decide (d.author = auO)))).drop
            ((page - 1) * page_size)).take page_size).Sublist
          (sortByCreatedDesc
            (speakDb.filter (fun d => decide (d.author = auO)))) :=
      (List.take_sublist _ _).trans (List.drop_sublist _ _)
    refine (List.Pairwise.sublist hsub hsorted).imp ?_
    intro a b hab
    simpa [process_visibility_createdAt, projectItem] using hab

/-- C9 (witness): page = 1 and pageSize = 2 over five entries of author
`oidB` yields total = 5 and two items, newest first. -/
theorem claimC9_witness :
    1 ≤ 1 ∧ 1 ≤ 2 ∧ 2 ≤ 100 ∧
      ∃ res : PageResult,
        IspeakService.get_by_page
            [sampleDocAt oidA 1, sampleDocAt oidC 2, sampleDocAt oidT 3,
              sampleDocAt oidN 4, sampleDocAt oidB 5]
            [] [] oidB.s 1 2 none = .ok res ∧
        res.total =
          (([sampleDocAt oidA 1, sampleDocAt oidC 2, sampleDocAt oidT 3,
              sampleDocAt oidN 4, sampleDocAt oidB 5] :
            List SpeakDoc).filter
              (fun d => decide (d.author = oidB))).length ∧
        res.items.length = min 2 (res.total - (1 - 1) * 2) ∧
        res.items.length ≤ 2 ∧
        res.items.Pairwise (fun a b => b.createdAt ≤ a.createdAt) ∧
        res.items =
          (((sortByCreatedDesc
                (([sampleDocAt oidA 1, sampleDocAt oidC 2, sampleDocAt oidT 3,
                    sampleDocAt oidN 4, sampleDocAt oidB 5] :
                  List SpeakDoc).filter
                    (fun d => decide (d.author = oidB)))).drop
              ((1 - 1) * 2)).take 2).map
            (fun d => IspeakService._process_visibility
              (projectItem [] [] d) (currentUserId none)) ∧
        res.isLogin = currentUserId none :=
  ⟨by decide, by decide, by decide,
   claimC9_pagination
     [sampleDocAt oidA 1, sampleDocAt oidC 2, sampleDocAt oidT 3,
       sampleDocAt oidN 4, sampleDocAt oidB 5]
     [] [] oidB 1 2 none (by decide) (by decide) (by decide)⟩

/-! ## C1 — password round-trip -/

theorem flatMap_ascii (s : PyStr) (h : ∀ c ∈ s, c < 0x80) :
    s.flatMap utf8EncodeCp = s := by
  induction s with
  | nil => rfl
  | cons c cs ih =>
    have hc : c < 0x80 := h c (by simp)
    have ihh := ih (fun x hx => h x (by simp [hx]))
    simp [utf8EncodeCp, hc, ihh]

theorem pyEncodeUtf8_ascii (s : PyStr) (h : ∀ c ∈ s, c < 0x80) :
    pyEncodeUtf8 s = .ok s := by
  have hns : s.any isSurrogate = false := by
    rw [List.any_eq_false]
    intro x hx
    have := h x hx
    have h2 : ¬(0xD800 ≤ x) := by omega
    simp [isSurrogate, h2]
  simp [pyEncodeUtf8, hns, flatMap_ascii s h]

/-- C1: the password round-trip FAILS on the code.  `hash_password` bcrypts
the SHA-256 hex pre-hash (a 64-character ASCII string), but
`verify_password` feeds the raw plaintext to `bcrypt.checkpw` without the
pre-hash; hence for every plaintext whose UTF-8 encoding is not exactly 64
bytes long (e.g. `"a"`), and every SHA-256 primitive honoring the
fixed-output hex interface, `verify_password(p, hash_password(p))` returns
`false`. -/
theorem claimC1_roundtrip_fails (sha : Bytes → PyStr)
    (hsha : IsHexDigestFn sha) (p : PyStr) (b : Bytes)
    (henc : pyEncodeUtf8 p = .ok b) (hlen : b.length ≠ 64) :
    ∃ dg, hash_password sha p = .ok dg ∧ verify_password p dg = false := by
  obtain ⟨hlen64, hascii⟩ := hsha b
  have hdig : pyEncodeUtf8 (sha b) = .ok (sha b) :=
    pyEncodeUtf8_ascii _ hascii
  have htake : (sha b).take 72 = sha b :=
    List.take_of_length_le (by omega)
  refine ⟨36 :: sha b, ?_, ?_⟩
  · unfold hash_password _preprocess_password pwdContextHash
    simp only [henc, hdig, htake, Bind.bind, Except.bind, Pure.pure,
      Except.pure]
  · have hne : ¬(b.take 72 = sha b) := by
      intro hcontra
      have hlt : (b.take 72).length = 64 := by rw [hcontra, hlen64]
      rw [List.length_take] at hlt
      omega
    by_cases hp : p.isEmpty
    · simp [verify_password, verify_passwordExc, verify_passwordBody, hp]
    · have hdg : pyEncodeUtf8 (36 :: sha b) = .ok (36 :: sha b) := by
        apply pyEncodeUtf8_ascii
        intro c hc
        rcases List.mem_cons.mp hc with rfl | hc2
        · omega
        · exact hascii c hc2
      unfold verify_password verify_passwordExc verify_passwordBody
      simp [hp, henc, hdg, bcryptCheckpw, hne, Bind.bind, Except.bind]

/-- C1 (witness): with the constant 64-hex-character digest function and
the one-byte password `"a"` (code point 97), hashing succeeds and
verification of the freshly produced digest returns `false`. -/
theorem claimC1_witness :
    IsHexDigestFn shaConst ∧ pyEncodeUtf8 [97] = .ok [97] ∧
      ([97] : Bytes).length ≠ 64 ∧
      ∃ dg, hash_password shaConst [97] = .ok dg ∧
        verify_password [97] dg = false := by
  have hsha : IsHexDigestFn shaConst := by
    intro b
    constructor
    · simp [shaConst]
    · intro c hc
      have := List.eq_of_mem_replicate hc
      omega
  exact ⟨hsha, by decide, by decide,
    claimC1_roundtrip_fails shaConst hsha [97] [97] (by decide) (by decide)⟩
